import Mathlib

/-!
# Verification of the audire repository's audio-feature predictor and server

This file shallowly embeds the parts of the `ds-showcase` (audire) repository
that the specification talks about:

* the audio-feature-predictor core (tag vectorizer, per-feature regressors,
  training pipeline, prediction & mood engine).  The Python sources
  (`train_model.py`, `predict_analyze.py`, `lastfm_scraper.py`) are declared
  by the repository's README (`src/unnamed/part_002`) but are not present in
  the source tree, so those operations are modelled from the specification's
  own words; each such definition carries a doc comment starting with
  `Modelled from the spec:`.
* the Express backend (`src/unnamed/part_004`, `server.js`): the audio-feature
  default-filling in `fetchAndStoreUserData`, the party-insights compatibility
  computation, and the join-party handler.  These are translated directly from
  the JavaScript source.

Numbers are modelled by `ℚ`: every quantity the claims speak about
(thresholds at 0.5, clamping bounds, means and variances, default constants)
is exact rational arithmetic in the source semantics the claims address.
-/

namespace AudioPredictor

/-- The four mood quadrants of the (valence, energy) plane
(README `src/unnamed/part_002`, lines 83–99, and spec §3 `MoodQuadrant`). -/
inductive MoodQuadrant where
  | HAPPY_ENERGETIC
  | ANGRY_INTENSE
  | SAD_MELANCHOLIC
  | PEACEFUL_CONTENT
deriving DecidableEq, Repr

/-- Modelled from the spec: `mood_of` (§4.4) — the Python implementation in
`predict_analyze.py` is absent from the source tree.  A pure threshold
function on (valence, energy): `valence >= 0.5 && energy >= 0.5` →
HAPPY_ENERGETIC; `valence < 0.5 && energy >= 0.5` → ANGRY_INTENSE;
`valence < 0.5 && energy < 0.5` → SAD_MELANCHOLIC; `valence >= 0.5 &&
energy < 0.5` → PEACEFUL_CONTENT. -/
def mood_of (valence energy : ℚ) : MoodQuadrant :=
  if 1/2 ≤ valence then
    if 1/2 ≤ energy then .HAPPY_ENERGETIC else .PEACEFUL_CONTENT
  else
    if 1/2 ≤ energy then .ANGRY_INTENSE else .SAD_MELANCHOLIC

end AudioPredictor

namespace Audire

/-- A row of the `audio_features` SQLite table
(`src/unnamed/part_003`, lines 47–61): every feature column is stored as a
REAL, never NULL by the writing code paths below. -/
structure AudioFeaturesRow where
  track_id : String
  danceability : ℚ
  energy : ℚ
  loudness : ℚ
  speechiness : ℚ
  acousticness : ℚ
  instrumentalness : ℚ
  liveness : ℚ
  valence : ℚ
  tempo : ℚ
deriving DecidableEq, Repr

/-- JavaScript `x || d` on a possibly-absent number: `undefined`/`null` and
the falsy number `0` are replaced by the default `d`
(NaN, also falsy, has no counterpart in `ℚ` and does not arise from the
modelled inputs). -/
def jsOr (v : Option ℚ) (d : ℚ) : ℚ :=
  match v with
  | none => d
  | some x => if x = 0 then d else x

/-- An audio-features object returned by the Spotify API for one track
(`backend/spotify.js` `getAudioFeatures`); individual numeric fields may be
absent. -/
structure ApiFeatures where
  id : String
  danceability : Option ℚ
  energy : Option ℚ
  loudness : Option ℚ
  speechiness : Option ℚ
  acousticness : Option ℚ
  instrumentalness : Option ℚ
  liveness : Option ℚ
  valence : Option ℚ
  tempo : Option ℚ
deriving DecidableEq, Repr

/-- The row stored by `fetchAndStoreUserData` when the audio-features API call
SUCCEEDS (`src/unnamed/part_004`, lines 147–168): each field falls back to a
per-feature constant via JavaScript `||`. -/
def storeFetchedFeatures (f : ApiFeatures) : AudioFeaturesRow :=
  { track_id := f.id
    danceability := jsOr f.danceability (1/2)
    energy := jsOr f.energy (1/2)
    loudness := jsOr f.loudness (-10)
    speechiness := jsOr f.speechiness (1/10)
    acousticness := jsOr f.acousticness (1/2)
    instrumentalness := jsOr f.instrumentalness (1/10)
    liveness := jsOr f.liveness (1/5)
    valence := jsOr f.valence (1/2)
    tempo := jsOr f.tempo 120 }

/-- The row stored by `fetchAndStoreUserData` when the audio-features API call
FAILS (`src/unnamed/part_004`, lines 170–183, the `catch` branch): a fixed
constant row `[0.6, 0.6, -8, 0.1, 0.3, 0.1, 0.2, 0.6, 120]` per track. -/
def apiFailureDefaultRow (trackId : String) : AudioFeaturesRow :=
  { track_id := trackId
    danceability := 3/5
    energy := 3/5
    loudness := -8
    speechiness := 1/10
    acousticness := 3/10
    instrumentalness := 1/10
    liveness := 1/5
    valence := 3/5
    tempo := 120 }

/-- A party member as selected by the insights endpoint
(`src/unnamed/part_004`, lines 464–469). -/
structure Member where
  id : String
deriving DecidableEq, Repr

/-- `memberFeatures[member.id]?.valence || 0.5`
(`src/unnamed/part_004`, line 560): `memberFeatures` holds the member's mean
stored valence when the member has at least one stored feature row, and is
absent otherwise; JavaScript `||` also replaces a mean of exactly `0`. -/
def memberValence (feats : String → Option ℚ) (m : Member) : ℚ :=
  jsOr (feats m.id) (1/2)

/-- The compatibility computation of `GET /api/parties/:partyId/insights`
(`src/unnamed/part_004`, lines 557–564): `compatibility` starts at `1`; when
the party has more than one member it becomes
`Math.max(0, 1 - variance * 2)` where `variance` is the mean of the squared
deviations of the members' valences from their mean. -/
def computeCompatibility (members : List Member) (feats : String → Option ℚ) : ℚ :=
  if 1 < members.length then
    let valences := members.map (memberValence feats)
    let avgValence := valences.sum / (valences.length : ℚ)
    let variance := (valences.map (fun v => (v - avgValence) ^ 2)).sum / (valences.length : ℚ)
    max 0 (1 - variance * 2)
  else 1

/-- Population variance of a list of rationals, written as the spec's words
"the population variance of the party members' mean valence values" read it:
mean of squared deviations from the mean. -/
def popVariance (xs : List ℚ) : ℚ :=
  (xs.map (fun v => (v - xs.sum / (xs.length : ℚ)) ^ 2)).sum / (xs.length : ℚ)

/-- The compatibility score as claim C9 states it: `max(0, 1 - 2 * variance)`
of the members' mean valences, a member with NO stored features contributing
`0.5` (and, unlike the code, a member whose stored mean is exactly `0`
contributing that `0`); `1` for parties of at most one member. -/
def claimCompatibility (members : List Member) (feats : String → Option ℚ) : ℚ :=
  if 1 < members.length then
    max 0 (1 - 2 * popVariance (members.map (fun m => (feats m.id).getD (1/2))))
  else 1

/-- A row of the `party_members` table as far as the join handler reads and
writes it (`src/unnamed/part_003`, lines 103–112): the (party, user) pair. -/
structure PartyMemberRow where
  party_id : String
  user_id : String
deriving DecidableEq, Repr

/-- `POST /api/parties/:partyId/join` (`src/unnamed/part_004`, lines 434–457):
look up an existing `(party_id, user_id)` row; insert one only if none exists;
respond `{ success: true }` either way.  Returns the new table state and the
reported success flag. -/
def joinParty (table : List PartyMemberRow) (partyId userId : String) :
    List PartyMemberRow × Bool :=
  let existing := table.filter (fun r => r.party_id = partyId ∧ r.user_id = userId)
  if existing.isEmpty then
    (table ++ [{ party_id := partyId, user_id := userId }], true)
  else
    (table, true)

end Audire

namespace AudioPredictor

/-- Modelled from the spec: the fitted Vocabulary (§3) — `train_model.py` is
absent from the source tree.  An ordered list of `(term, idf-weight)` pairs;
the position of a pair is the term's column index, the second component the
term's inverse-document-frequency weight fixed at fit time. -/
structure Vocabulary where
  entries : List (String × ℚ)
deriving DecidableEq, Repr

/-- The set of recognized terms of a fitted vocabulary. -/
def Vocabulary.terms (voc : Vocabulary) : List String :=
  voc.entries.map Prod.fst

/-- The dimensionality of the vectorizer's output, `|vocabulary|`. -/
def Vocabulary.size (voc : Vocabulary) : ℕ :=
  voc.entries.length

/-- Modelled from the spec: `transform` (§4.1) — the Python implementation is
absent from the source tree.  Term-frequency × inverse-document-frequency
weighting scaled by the input tags' own relevance weights: the entry for a
vocabulary term is the summed relevance weight of the input tags carrying
that term, times the term's idf weight.  Tags absent from the fitted
vocabulary contribute to no entry (silently ignored), and an input with zero
recognized terms yields the zero vector. -/
def transform (tags : List (String × ℚ)) (voc : Vocabulary) : List ℚ :=
  voc.entries.map (fun e =>
    (((tags.filter (fun p => p.1 = e.1)).map Prod.snd).sum) * e.2)

/-- The fixed, ordered set of target acoustic features (spec §3). -/
inductive FeatureName where
  | danceability
  | energy
  | valence
  | speechiness
  | acousticness
  | instrumentalness
  | tempo
deriving DecidableEq, Repr

/-- The spec's §3 feature order: all target features, `tempo` last. -/
def allFeatures : List FeatureName :=
  [.danceability, .energy, .valence, .speechiness, .acousticness,
   .instrumentalness, .tempo]

/-- The upper end of a feature's valid range: `1` for bounded features,
`300` BPM for `tempo` (spec §3, §4.2). -/
def upperBound : FeatureName → ℚ
  | .tempo => 300
  | _ => 1

/-- Modelled from the spec: the post-hoc clamp the Prediction Engine applies
to raw regressor output (§4.2, §4.4): into `[0, 1]`, or `[0, 300]` for
`tempo`. -/
def clampFeature (f : FeatureName) (x : ℚ) : ℚ :=
  max 0 (min (upperBound f) x)

/-- Modelled from the spec: a fitted per-feature regressor (§4.2) — the spec
leaves the regressor family abstract ("ensemble regression model"), so a
fitted model is represented by its parameters: one coefficient per
vocabulary column plus an intercept.  Its raw output is NOT guaranteed to
lie in the feature's valid range. -/
structure Regressor where
  coeffs : List ℚ
  intercept : ℚ
deriving DecidableEq, Repr

/-- Evaluate a fitted regressor on a tag-vector: intercept plus the dot
product of the coefficients with the vector. -/
def Regressor.eval (r : Regressor) (x : List ℚ) : ℚ :=
  r.intercept + ((r.coeffs.zip x).map (fun p => p.1 * p.2)).sum

/-- Training metadata carried by a bundle (spec §3): corpus size and the
warnings for features skipped for insufficient clean rows (§4.3). -/
structure TrainingMetadata where
  corpusSize : ℕ
  skippedFeatures : List FeatureName
deriving DecidableEq, Repr

/-- Modelled from the spec: the ModelBundle (§3) — vocabulary, the ordered
covered feature names, one fitted regressor per covered feature, and
training metadata. -/
structure ModelBundle where
  vocab : Vocabulary
  featureNames : List FeatureName
  models : List Regressor
  metadata : TrainingMetadata
deriving DecidableEq, Repr

/-- A bundle is wellformed when it has exactly one model per covered
feature name (the integrity condition `load` checks, §7
`CorruptBundleError`). -/
def ModelBundle.wellformed (b : ModelBundle) : Prop :=
  b.featureNames.length = b.models.length

instance (b : ModelBundle) : Decidable b.wellformed := by
  unfold ModelBundle.wellformed; infer_instance

/-- Modelled from the spec: a PredictionResult (§3) — the predicted
(feature, value) pairs, in the bundle's feature order, plus the tag-count
based confidence hint. -/
structure PredictionResult where
  values : List (FeatureName × ℚ)
  confidence_hint : ℕ
deriving DecidableEq, Repr

/-- The number of input tags recognized by the fitted vocabulary. -/
def recognizedCount (tags : List (String × ℚ)) (voc : Vocabulary) : ℕ :=
  (tags.filter (fun p => p.1 ∈ voc.terms)).length

/-- Modelled from the spec: `predict` (§4.4) — vectorize the tags, evaluate
each covered feature's regressor, clamp each raw output into the feature's
valid range, and attach a confidence hint: `0` when the vectorized input is
all-zero (§4.4, §7 low-confidence results), otherwise the recognized tag
count (§3). -/
def predict (b : ModelBundle) (tags : List (String × ℚ)) : PredictionResult :=
  let vec := transform tags b.vocab
  { values := (b.featureNames.zip b.models).map
      (fun p => (p.1, clampFeature p.1 (p.2.eval vec)))
    confidence_hint := if vec.all (fun q => q = 0) then 0
      else recognizedCount tags b.vocab }

/-- Training can fail for lack of usable clean rows (spec §4.2, §7):
per feature (non-fatal, the feature is skipped) or for the whole run when
zero features are trainable (fatal). -/
inductive TrainError where
  | InsufficientDataError
deriving DecidableEq, Repr

/-- The minimum number of usable clean rows required to train one feature's
regressor (spec §4.2, "~50"). -/
def minRows : ℕ := 50

/-- The minimum number of tracks a term must appear in to enter the fitted
vocabulary (spec §4.1, default 2). -/
def minDocFreq : ℕ := 2

/-- Modelled from the spec: one raw training row (§3 TaggedTrack + §6) — a
weighted tag sequence and per-feature ground truth, absent (`none`) where
the row has no ground-truth value for that feature. -/
structure TrainingRow where
  tags : List (String × ℚ)
  truth : FeatureName → Option ℚ

/-- Modelled from the spec: CLEAN/FILTER (§4.3) — drop rows with an empty
tag set or with null ground truth for every target feature. -/
def cleanRows (rows : List TrainingRow) (targets : List FeatureName) :
    List TrainingRow :=
  rows.filter (fun r => ¬ r.tags = [] ∧ targets.any (fun f => (r.truth f).isSome))

/-- The distinct terms of one training row's tag set. -/
def docTerms (r : TrainingRow) : List String :=
  (r.tags.map Prod.fst).dedup

/-- Document frequency of a term in a corpus: the number of rows whose tag
set carries the term. -/
def docFreq (rows : List TrainingRow) (t : String) : ℕ :=
  (rows.filter (fun r => t ∈ docTerms r)).length

/-- Modelled from the spec: `fit` of the Tag Vectorizer (§4.1) — build the
term → column-index mapping from the union of all tags across the corpus in
first-occurrence order, excluding terms appearing in fewer than `minDocFreq`
tracks; each kept term's idf weight is corpus size over document frequency
(the spec fixes "TF-IDF style" weighting but not the exact idf formula). -/
def fitVocabulary (rows : List TrainingRow) : Vocabulary :=
  let kept := ((rows.map docTerms).flatten.dedup).filter
    (fun t => minDocFreq ≤ docFreq rows t)
  { entries := kept.map (fun t => (t, (rows.length : ℚ) / (docFreq rows t : ℚ))) }

/-- The rows usable for one feature's regressor: those with a ground-truth
value for that feature (spec §3: missing ground truth is dropped row-wise
per feature). -/
def usableRows (rows : List TrainingRow) (f : FeatureName) : List TrainingRow :=
  rows.filter (fun r => (r.truth f).isSome)

/-- Modelled from the spec: per-feature `fit` (§4.2) — reject training with
fewer than `minRows` usable rows via `InsufficientDataError` rather than
silently producing a model; otherwise produce a fitted regressor for the
feature (the spec leaves the regression algorithm abstract; the fitted
parameters here are the mean-of-ground-truth baseline over the usable
rows, with one zero coefficient per vocabulary column). -/
def trainFeature (voc : Vocabulary) (rows : List TrainingRow) (f : FeatureName) :
    Except TrainError Regressor :=
  let usable := usableRows rows f
  if usable.length < minRows then .error .InsufficientDataError
  else
    let ys := usable.map (fun r => (r.truth f).getD 0)
    .ok { coeffs := List.replicate voc.size 0
          intercept := ys.sum / (ys.length : ℚ) }

/-- The pipeline's PER_FEATURE stage (§4.3): each target feature paired with
its per-feature fit outcome over the cleaned corpus. -/
def pipelineResults (rows : List TrainingRow) (targets : List FeatureName) :
    List (FeatureName × Except TrainError Regressor) :=
  targets.map (fun f =>
    (f, trainFeature (fitVocabulary (cleanRows rows targets))
      (cleanRows rows targets) f))

/-- The successfully fitted (feature, regressor) pairs, in target order. -/
def pipelineTrained (rows : List TrainingRow) (targets : List FeatureName) :
    List (FeatureName × Regressor) :=
  (pipelineResults rows targets).filterMap
    (fun p => match p.2 with | .ok r => some (p.1, r) | .error _ => none)

/-- The features skipped for insufficient clean rows, in target order —
recorded as metadata warnings (§4.3). -/
def pipelineSkipped (rows : List TrainingRow) (targets : List FeatureName) :
    List FeatureName :=
  (pipelineResults rows targets).filterMap
    (fun p => match p.2 with | .ok _ => none | .error _ => some p.1)

/-- Modelled from the spec: the Training Pipeline (§4.3) —
CLEAN/FILTER → FIT_VOCABULARY → per-feature FIT → ASSEMBLE_BUNDLE.  A
feature whose per-feature fit fails for insufficient clean rows is skipped
with a warning recorded in metadata; the run aborts with
`InsufficientDataError` only when zero features are trainable. -/
def runPipeline (rows : List TrainingRow) (targets : List FeatureName) :
    Except TrainError ModelBundle :=
  if pipelineTrained rows targets = [] then .error .InsufficientDataError
  else .ok { vocab := fitVocabulary (cleanRows rows targets)
             featureNames := (pipelineTrained rows targets).map Prod.fst
             models := (pipelineTrained rows targets).map Prod.snd
             metadata := { corpusSize := (cleanRows rows targets).length
                           skippedFeatures := pipelineSkipped rows targets } }

/-- Modelled from the spec: the ambient mutable state of a prediction-serving
process (§5, §9 note on module-level state), threaded through each call; per
§4.1/§8 `transform` and `predict` read none of it — a call only advances the
call counter. -/
structure ProcState where
  callCount : ℕ
deriving DecidableEq, Repr

/-- A `transform` call as executed inside a serving process: the result
depends only on the vocabulary and tags, never on the ambient state. -/
def transformCall (s : ProcState) (voc : Vocabulary)
    (tags : List (String × ℚ)) : List ℚ × ProcState :=
  (transform tags voc, { callCount := s.callCount + 1 })

/-- A `predict` call as executed inside a serving process: the result
depends only on the loaded bundle and tags, never on the ambient state. -/
def predictCall (s : ProcState) (b : ModelBundle)
    (tags : List (String × ℚ)) : PredictionResult × ProcState :=
  (predict b tags, { callCount := s.callCount + 1 })

/-- Loading a persisted bundle can fail its integrity check (spec §7). -/
inductive BundleError where
  | CorruptBundleError
deriving DecidableEq, Repr

/-- Modelled from the spec: the serialized form of a bundle (§4.3 PERSIST,
§6) — flat data: vocabulary entries, feature names, per-model parameter
lists, and the metadata fields. -/
structure PersistedBundle where
  vocabEntries : List (String × ℚ)
  featureNames : List FeatureName
  modelParams : List (List ℚ × ℚ)
  corpusSize : ℕ
  skippedFeatures : List FeatureName
deriving DecidableEq, Repr

/-- Modelled from the spec: PERSIST (§4.3) — serialize a bundle into its
flat persisted form. -/
def persist (b : ModelBundle) : PersistedBundle :=
  { vocabEntries := b.vocab.entries
    featureNames := b.featureNames
    modelParams := b.models.map (fun r => (r.coeffs, r.intercept))
    corpusSize := b.metadata.corpusSize
    skippedFeatures := b.metadata.skippedFeatures }

/-- Modelled from the spec: `load` (§4.4, §7) — rebuild a bundle from its
persisted form, failing with `CorruptBundleError` on a feature-name/model
count mismatch. -/
def load (p : PersistedBundle) : Except BundleError ModelBundle :=
  if p.featureNames.length = p.modelParams.length then
    .ok { vocab := { entries := p.vocabEntries }
          featureNames := p.featureNames
          models := p.modelParams.map (fun q => { coeffs := q.1, intercept := q.2 })
          metadata := { corpusSize := p.corpusSize
                        skippedFeatures := p.skippedFeatures } }
  else .error .CorruptBundleError

end AudioPredictor

namespace AudioPredictor

/-- A small fitted vocabulary used as concrete input in the witnesses. -/
def sampleVocab : Vocabulary :=
  { entries := [("rock", 2), ("melancholic", 3)] }

/-- A small wellformed fitted bundle used as concrete input in the
witnesses: two covered features, one regressor per feature. -/
def sampleBundle : ModelBundle :=
  { vocab := sampleVocab
    featureNames := [.valence, .energy]
    models := [{ coeffs := [1, 0], intercept := 1/5 },
               { coeffs := [0, 1], intercept := 2/5 }]
    metadata := { corpusSize := 200, skippedFeatures := [] } }

/-- A one-feature bundle whose regressor's raw output lies far outside the
valid range, used as concrete input in the range-invariant witness. -/
def trivBundle : ModelBundle :=
  { vocab := { entries := [] }
    featureNames := [.valence]
    models := [{ coeffs := [], intercept := 7 }]
    metadata := { corpusSize := 0, skippedFeatures := [] } }

/-- A training row with ground truth only for energy and valence, used as
concrete input in the partial-coverage witness. -/
def sampleRow : TrainingRow :=
  { tags := [("rock", 1), ("melancholic", 1)]
    truth := fun f => match f with
      | .energy => some (2/5)
      | .valence => some (3/10)
      | _ => none }

/-- Fifty copies of `sampleRow`: enough usable rows for energy and valence,
none for any other feature. -/
def sampleRows : List TrainingRow :=
  List.replicate 50 sampleRow

end AudioPredictor

namespace Audire

/-- An API audio-features object with a missing danceability value, used as
concrete input in the default-constants witness. -/
def sampleApiFeatures : ApiFeatures :=
  { id := "t1"
    danceability := none
    energy := some (7/10)
    loudness := some (-6)
    speechiness := some (1/20)
    acousticness := some (1/4)
    instrumentalness := none
    liveness := some (3/10)
    valence := some (4/5)
    tempo := some 128 }

/-- A two-member party used in the compatibility counterexample. -/
def members9 : List Member :=
  [{ id := "a" }, { id := "b" }]

/-- Member mean valences for the compatibility counterexample: member "a"
has a stored mean valence of exactly 0, member "b" of 1. -/
def feats9 : String → Option ℚ :=
  fun s => if s = "a" then some 0 else if s = "b" then some 1 else none

end Audire

namespace AudioPredictor

/-- C1: `mood_of` is a pure total function of (valence, energy) on
`[0,1] × [0,1]`: HAPPY_ENERGETIC when `valence ≥ 0.5` and `energy ≥ 0.5`,
ANGRY_INTENSE when `valence < 0.5` and `energy ≥ 0.5`, SAD_MELANCHOLIC when
`valence < 0.5` and `energy < 0.5`, PEACEFUL_CONTENT when `valence ≥ 0.5`
and `energy < 0.5`; the boundary input `valence = energy = 0.5` resolves to
HAPPY_ENERGETIC. -/
theorem mood_of_quadrants (v e : ℚ) (hv0 : 0 ≤ v) (hv1 : v ≤ 1)
    (he0 : 0 ≤ e) (he1 : e ≤ 1) :
    (1/2 ≤ v → 1/2 ≤ e → mood_of v e = .HAPPY_ENERGETIC) ∧
    (v < 1/2 → 1/2 ≤ e → mood_of v e = .ANGRY_INTENSE) ∧
    (v < 1/2 → e < 1/2 → mood_of v e = .SAD_MELANCHOLIC) ∧
    (1/2 ≤ v → e < 1/2 → mood_of v e = .PEACEFUL_CONTENT) ∧
    mood_of (1/2) (1/2) = .HAPPY_ENERGETIC := by
  refine ⟨fun h1 h2 => ?_, fun h1 h2 => ?_, fun h1 h2 => ?_, fun h1 h2 => ?_,
    by norm_num [mood_of]⟩
  · simp only [mood_of]
    rw [if_pos h1, if_pos h2]
  · simp only [mood_of]
    rw [if_neg (not_le.mpr h1), if_pos h2]
  · simp only [mood_of]
    rw [if_neg (not_le.mpr h1), if_neg (not_le.mpr h2)]
  · simp only [mood_of]
    rw [if_pos h1, if_neg (not_le.mpr h2)]

/-- Witness for C1: the boundary midpoint and one sample per strict
quadrant, at concrete inputs. -/
theorem mood_of_quadrants_witness :
    mood_of (1/2) (1/2) = MoodQuadrant.HAPPY_ENERGETIC ∧
    mood_of (1/4) (3/4) = MoodQuadrant.ANGRY_INTENSE ∧
    mood_of (1/4) (1/4) = MoodQuadrant.SAD_MELANCHOLIC ∧
    mood_of (3/4) (1/4) = MoodQuadrant.PEACEFUL_CONTENT := by
  refine ⟨?_, ?_, ?_, ?_⟩
  · exact (mood_of_quadrants (1/2) (1/2) (by norm_num) (by norm_num)
      (by norm_num) (by norm_num)).2.2.2.2
  · exact (mood_of_quadrants (1/4) (3/4) (by norm_num) (by norm_num)
      (by norm_num) (by norm_num)).2.1 (by norm_num) (by norm_num)
  · exact (mood_of_quadrants (1/4) (1/4) (by norm_num) (by norm_num)
      (by norm_num) (by norm_num)).2.2.1 (by norm_num) (by norm_num)
  · exact (mood_of_quadrants (3/4) (1/4) (by norm_num) (by norm_num)
      (by norm_num) (by norm_num)).2.2.2.1 (by norm_num) (by norm_num)

/-- C7: `transform` and `predict` are deterministic pure functions — for a
fixed vocabulary (and loaded bundle) and the same tag input, their result is
independent of the ambient process state, and two successive calls (the
second starting from the state the first left behind) produce identical
output. -/
theorem transform_predict_deterministic (s1 s2 : ProcState) (voc : Vocabulary)
    (b : ModelBundle) (tags : List (String × ℚ)) :
    (transformCall s1 voc tags).1 = (transformCall s2 voc tags).1 ∧
    (transformCall (transformCall s1 voc tags).2 voc tags).1 =
      (transformCall s1 voc tags).1 ∧
    (predictCall s1 b tags).1 = (predictCall s2 b tags).1 ∧
    (predictCall (predictCall s1 b tags).2 b tags).1 =
      (predictCall s1 b tags).1 :=
  ⟨rfl, rfl, rfl, rfl⟩

end AudioPredictor

namespace Audire

/-- C8 counterexample: on audio-features API failure the stored danceability
default is `0.6`, not `0.5` as the claim states. -/
theorem apiFailureDefault_danceability_counterexample :
    (apiFailureDefaultRow "track0").danceability = 3/5 ∧
    ¬ (apiFailureDefaultRow "track0").danceability = 1/2 := by
  constructor
  · rfl
  · norm_num [apiFailureDefaultRow]

/-- C8 (amended): when the upstream audio-features API call fails, the
source stores a fixed per-feature default constant row for every track —
never a missing value — with danceability defaulting to `0.6` (the `0.5`
danceability default applies to a missing value inside a successful API
response). -/
theorem apiFailure_default_constants (tid1 tid2 : String) (f : ApiFeatures)
    (hd : f.danceability = none) :
    (apiFailureDefaultRow tid1).danceability = 3/5 ∧
    (apiFailureDefaultRow tid1).energy = 3/5 ∧
    (apiFailureDefaultRow tid1).loudness = -8 ∧
    (apiFailureDefaultRow tid1).speechiness = 1/10 ∧
    (apiFailureDefaultRow tid1).acousticness = 3/10 ∧
    (apiFailureDefaultRow tid1).instrumentalness = 1/10 ∧
    (apiFailureDefaultRow tid1).liveness = 1/5 ∧
    (apiFailureDefaultRow tid1).valence = 3/5 ∧
    (apiFailureDefaultRow tid1).tempo = 120 ∧
    (apiFailureDefaultRow tid1).track_id = tid1 ∧
    (apiFailureDefaultRow tid1).danceability =
      (apiFailureDefaultRow tid2).danceability ∧
    (storeFetchedFeatures f).danceability = 1/2 := by
  refine ⟨rfl, rfl, rfl, rfl, rfl, rfl, rfl, rfl, rfl, rfl, rfl, ?_⟩
  simp [storeFetchedFeatures, jsOr, hd]

/-- Witness for C8 (amended): the default constants at two concrete track
ids and a concrete API object missing its danceability. -/
theorem apiFailure_default_constants_witness :
    (apiFailureDefaultRow "t1").danceability = 3/5 ∧
    (apiFailureDefaultRow "t1").energy = 3/5 ∧
    (apiFailureDefaultRow "t1").loudness = -8 ∧
    (apiFailureDefaultRow "t1").speechiness = 1/10 ∧
    (apiFailureDefaultRow "t1").acousticness = 3/10 ∧
    (apiFailureDefaultRow "t1").instrumentalness = 1/10 ∧
    (apiFailureDefaultRow "t1").liveness = 1/5 ∧
    (apiFailureDefaultRow "t1").valence = 3/5 ∧
    (apiFailureDefaultRow "t1").tempo = 120 ∧
    (apiFailureDefaultRow "t1").track_id = "t1" ∧
    (apiFailureDefaultRow "t1").danceability =
      (apiFailureDefaultRow "t2").danceability ∧
    (storeFetchedFeatures sampleApiFeatures).danceability = 1/2 :=
  apiFailure_default_constants "t1" "t2" sampleApiFeatures rfl

end Audire

namespace Audire

lemma popVariance_nonneg (xs : List ℚ) : 0 ≤ popVariance xs := by
  unfold popVariance
  apply div_nonneg
  · apply List.sum_nonneg
    intro x hx
    obtain ⟨v, _, rfl⟩ := List.mem_map.mp hx
    positivity
  · positivity

lemma computeCompatibility_eq_of_lt (members : List Member)
    (feats : String → Option ℚ) (h : 1 < members.length) :
    computeCompatibility members feats =
      max 0 (1 - 2 * popVariance (members.map (memberValence feats))) := by
  simp only [computeCompatibility, popVariance, if_pos h]
  congr 1
  ring

lemma computeCompatibility_eq_one (members : List Member)
    (feats : String → Option ℚ) (h : members.length ≤ 1) :
    computeCompatibility members feats = 1 := by
  simp only [computeCompatibility]
  rw [if_neg (not_lt.mpr h)]

/-- C9 (amended): the party-insights compatibility score is
`max(0, 1 - 2 * variance)` of the members' per-member valences, where a
member contributes their stored mean valence EXCEPT that a member with no
stored features — or, through JavaScript falsy coalescing, one whose stored
mean valence is exactly 0 — contributes `0.5`; parties of at most one member
score `1`, and every score lies in `[0, 1]`. -/
theorem computeCompatibility_formula (members : List Member)
    (feats : String → Option ℚ) :
    (members.length ≤ 1 → computeCompatibility members feats = 1) ∧
    (1 < members.length → computeCompatibility members feats =
      max 0 (1 - 2 * popVariance (members.map (memberValence feats)))) ∧
    (∀ m : Member, feats m.id = none → memberValence feats m = 1/2) ∧
    (∀ m : Member, feats m.id = some 0 → memberValence feats m = 1/2) ∧
    0 ≤ computeCompatibility members feats ∧
    computeCompatibility members feats ≤ 1 := by
  refine ⟨computeCompatibility_eq_one members feats,
    computeCompatibility_eq_of_lt members feats,
    fun m hm => by simp [memberValence, jsOr, hm],
    fun m hm => by simp [memberValence, jsOr, hm], ?_, ?_⟩
  · rcases le_or_lt members.length 1 with hle | hlt
    · rw [computeCompatibility_eq_one members feats hle]
      norm_num
    · rw [computeCompatibility_eq_of_lt members feats hlt]
      exact le_max_left 0 _
  · rcases le_or_lt members.length 1 with hle | hlt
    · rw [computeCompatibility_eq_one members feats hle]
    · rw [computeCompatibility_eq_of_lt members feats hlt]
      have hvar := popVariance_nonneg (members.map (memberValence feats))
      apply max_le (by norm_num)
      linarith

/-- C9 counterexample: in a two-member party where member "a" has a stored
mean valence of exactly 0 and member "b" of 1, the code scores `7/8`
(JavaScript `|| 0.5` replaces the falsy mean `0` by `0.5`), while the
claim's formula — population variance of the members' mean valences, `0.5`
only for members with no stored features — scores `1/2`. -/
theorem computeCompatibility_falsy_zero_counterexample :
    computeCompatibility members9 feats9 = 7/8 ∧
    claimCompatibility members9 feats9 = 1/2 ∧
    computeCompatibility members9 feats9 ≠
      claimCompatibility members9 feats9 := by
  refine ⟨?_, ?_, ?_⟩ <;>
  · simp [computeCompatibility, claimCompatibility, popVariance,
      members9, feats9, memberValence, jsOr]
    norm_num [max_eq_right]

end Audire

namespace Audire

lemma joinParty_filter_eq_nil_iff (t : List PartyMemberRow) (p u : String) :
    t.filter (fun r => r.party_id = p ∧ r.user_id = u) = [] ↔
      ({ party_id := p, user_id := u } : PartyMemberRow) ∉ t := by
  rw [List.filter_eq_nil_iff]
  constructor
  · intro h hmem
    have := h _ hmem
    simp at this
  · intro h r hr
    simp only [decide_eq_true_eq, not_and]
    intro h1 h2
    apply h
    have hre : r = { party_id := p, user_id := u } := by
      cases r
      simp_all
    rw [hre] at hr
    exact hr

lemma joinParty_of_mem (t : List PartyMemberRow) (p u : String)
    (h : ({ party_id := p, user_id := u } : PartyMemberRow) ∈ t) :
    joinParty t p u = (t, true) := by
  have hne : t.filter (fun r => r.party_id = p ∧ r.user_id = u) ≠ [] :=
    fun hnil => ((joinParty_filter_eq_nil_iff t p u).mp hnil) h
  simp only [joinParty]
  rw [if_neg (by simpa [List.isEmpty_iff] using hne)]

lemma joinParty_of_not_mem (t : List PartyMemberRow) (p u : String)
    (h : ({ party_id := p, user_id := u } : PartyMemberRow) ∉ t) :
    joinParty t p u = (t ++ [{ party_id := p, user_id := u }], true) := by
  have hnil : t.filter (fun r => r.party_id = p ∧ r.user_id = u) = [] :=
    (joinParty_filter_eq_nil_iff t p u).mpr h
  simp only [joinParty]
  rw [if_pos (List.isEmpty_iff.mpr hnil)]

/-- C10: joining a party is idempotent — the handler inserts a
`party_members` row only when the (party, user) pair is absent, so a second
join leaves the table exactly as the first left it, and both joins report
success. -/
theorem joinParty_idempotent (table : List PartyMemberRow) (p u : String) :
    (joinParty table p u).2 = true ∧
    (joinParty (joinParty table p u).1 p u).2 = true ∧
    (joinParty (joinParty table p u).1 p u).1 = (joinParty table p u).1 ∧
    (({ party_id := p, user_id := u } : PartyMemberRow) ∈ table →
      (joinParty table p u).1 = table) ∧
    (({ party_id := p, user_id := u } : PartyMemberRow) ∉ table →
      (joinParty table p u).1 = table ++ [{ party_id := p, user_id := u }]) := by
  by_cases hmem : ({ party_id := p, user_id := u } : PartyMemberRow) ∈ table
  · have h1 := joinParty_of_mem table p u hmem
    refine ⟨?_, ?_, ?_, fun _ => ?_, fun hn => absurd hmem hn⟩ <;> simp [h1]
  · have h1 := joinParty_of_not_mem table p u hmem
    have hmem2 : ({ party_id := p, user_id := u } : PartyMemberRow) ∈
        table ++ [{ party_id := p, user_id := u }] := by
      simp
    have h2 := joinParty_of_mem _ p u hmem2
    refine ⟨?_, ?_, ?_, fun hmem3 => absurd hmem3 hmem, fun _ => ?_⟩ <;>
      simp [h1, h2]

end Audire

namespace AudioPredictor

lemma clampFeature_bounds (f : FeatureName) (x : ℚ) :
    0 ≤ clampFeature f x ∧ clampFeature f x ≤ upperBound f := by
  constructor
  · exact le_max_left 0 _
  · apply max_le
    · cases f <;> norm_num [upperBound]
    · exact min_le_left _ _

/-- C2: every feature value in a `predict` result lies in the feature's
valid range — `[0,1]` for bounded features and `[0,300]` for tempo — for
every bundle (hence regardless of the raw output of the underlying
per-feature regressor) and every tag input: the Prediction Engine clamps
raw regressor outputs post-hoc. -/
theorem predict_range_invariant (b : ModelBundle) (tags : List (String × ℚ))
    (f : FeatureName) (q : ℚ) (hmem : (f, q) ∈ (predict b tags).values) :
    0 ≤ q ∧ q ≤ upperBound f ∧ (f ≠ .tempo → q ≤ 1) ∧
      (f = .tempo → q ≤ 300) := by
  simp only [predict, List.mem_map] at hmem
  obtain ⟨p, hpmem, hpe⟩ := hmem
  rw [Prod.mk.injEq] at hpe
  obtain ⟨hf, hq⟩ := hpe
  subst hf
  subst hq
  obtain ⟨h0, h1⟩ := clampFeature_bounds p.1 (p.2.eval (transform tags b.vocab))
  refine ⟨h0, h1, fun hne => ?_, fun heq => ?_⟩
  · have : upperBound p.1 = 1 := by
      cases hfn : p.1 <;> simp_all [upperBound]
    linarith [this ▸ h1]
  · rw [heq] at h1 ⊢
    simpa [upperBound] using h1

/-- Witness for C2: a concrete one-feature bundle whose regressor's raw
output `7` lies far outside `[0,1]`; the predicted valence is clamped
to `1`. -/
theorem predict_range_invariant_witness :
    0 ≤ (1 : ℚ) ∧ (1 : ℚ) ≤ upperBound .valence ∧
      (FeatureName.valence ≠ .tempo → (1 : ℚ) ≤ 1) ∧
      (FeatureName.valence = .tempo → (1 : ℚ) ≤ 300) :=
  predict_range_invariant trivBundle [] .valence 1 (by
    simp [predict, trivBundle, transform, Regressor.eval, clampFeature,
      upperBound])

lemma transform_all_unknown (tags : List (String × ℚ)) (voc : Vocabulary)
    (h : ∀ p ∈ tags, p.1 ∉ voc.terms) :
    transform tags voc = List.replicate voc.size 0 := by
  rw [List.eq_replicate_iff]
  constructor
  · simp [transform, Vocabulary.size]
  · intro q hq
    simp only [transform, List.mem_map] at hq
    obtain ⟨e, he, rfl⟩ := hq
    have hfil : tags.filter (fun p => p.1 = e.1) = [] := by
      rw [List.filter_eq_nil_iff]
      intro p hp
      simp only [decide_eq_true_eq]
      intro hpe
      exact h p hp (by
        rw [hpe]
        exact List.mem_map_of_mem Prod.fst he)
    rw [hfil]
    simp

lemma replicate_zero_all_zero (n : ℕ) :
    (List.replicate n (0 : ℚ)).all (fun q => q = 0) = true := by
  rw [List.all_eq_true]
  intro q hq
  simp [List.eq_of_mem_replicate hq]

/-- C3: on a tag input containing only terms absent from the fitted
vocabulary, `transform` returns the zero vector (unknown tags are silently
ignored — `transform` and `predict` are total, no error value exists), and
`predict` flags the result with `confidence_hint = 0`. -/
theorem unknown_tags_zero_vector (b : ModelBundle) (tags : List (String × ℚ))
    (h : ∀ p ∈ tags, p.1 ∉ b.vocab.terms) :
    transform tags b.vocab = List.replicate b.vocab.size 0 ∧
    (predict b tags).confidence_hint = 0 := by
  have hz := transform_all_unknown tags b.vocab h
  refine ⟨hz, ?_⟩
  simp only [predict, hz]
  rw [if_pos (replicate_zero_all_zero b.vocab.size)]

/-- Witness for C3: predicting on the single unseen tag "xyzzy123" against
the sample two-term vocabulary yields the zero vector and confidence 0. -/
theorem unknown_tags_zero_vector_witness :
    transform [("xyzzy123", 1)] sampleBundle.vocab =
      List.replicate sampleBundle.vocab.size 0 ∧
    (predict sampleBundle [("xyzzy123", 1)]).confidence_hint = 0 :=
  unknown_tags_zero_vector sampleBundle [("xyzzy123", 1)] (by decide)

/-- C4: persist-then-load is a round trip — for every wellformed fitted
bundle, `load (persist b)` returns exactly `b`, and predictions from the
loaded bundle on a fixed tag input are identical to predictions from the
in-memory bundle. -/
theorem persist_load_roundtrip (b : ModelBundle) (tags : List (String × ℚ))
    (hw : b.wellformed) :
    load (persist b) = Except.ok b ∧
    (load (persist b)).map (fun b2 => predict b2 tags) =
      Except.ok (predict b tags) := by
  have h1 : load (persist b) = Except.ok b := by
    obtain ⟨⟨entries⟩, fns, ms, ⟨c, s⟩⟩ := b
    unfold ModelBundle.wellformed at hw
    unfold load persist
    rw [if_pos (by simpa using hw)]
    have hms : ((ms.map (fun r => (r.coeffs, r.intercept))).map
        (fun q : List ℚ × ℚ => Regressor.mk q.1 q.2)) = ms := by
      rw [List.map_map]
      have hid : ((fun q : List ℚ × ℚ => Regressor.mk q.1 q.2) ∘
          (fun r : Regressor => (r.coeffs, r.intercept))) = id :=
        funext fun r => rfl
      rw [hid, List.map_id]
    simp [hms]
  exact ⟨h1, by rw [h1]; rfl⟩

/-- Witness for C4: the sample bundle survives persist-then-load intact, and
the loaded bundle's prediction on tags `[("rock", 1)]` matches the
in-memory one. -/
theorem persist_load_roundtrip_witness :
    load (persist sampleBundle) = Except.ok sampleBundle ∧
    (load (persist sampleBundle)).map
        (fun b2 => predict b2 [("rock", 1)]) =
      Except.ok (predict sampleBundle [("rock", 1)]) :=
  persist_load_roundtrip sampleBundle [("rock", 1)] (by decide)

end AudioPredictor

namespace AudioPredictor

lemma trainFeature_error_of_insufficient (voc : Vocabulary)
    (rows : List TrainingRow) (f : FeatureName)
    (h : (usableRows rows f).length < minRows) :
    trainFeature voc rows f = .error .InsufficientDataError := by
  simp only [trainFeature]
  rw [if_pos h]

lemma runPipeline_ok_inv (rows : List TrainingRow) (targets : List FeatureName)
    (b : ModelBundle) (hok : runPipeline rows targets = Except.ok b) :
    b.featureNames = (pipelineTrained rows targets).map Prod.fst ∧
    b.metadata.skippedFeatures = pipelineSkipped rows targets := by
  simp only [runPipeline] at hok
  by_cases htr : pipelineTrained rows targets = []
  · rw [if_pos htr] at hok
    cases hok
  · rw [if_neg htr] at hok
    rw [Except.ok.injEq] at hok
    subst hok
    exact ⟨rfl, rfl⟩

/-- C6: training one feature's regressor on fewer than `minRows` usable
clean rows fails with an explicit `InsufficientDataError` rather than
silently producing a model; at pipeline level such a feature is skipped
(absent from any successfully assembled bundle's covered features, present
in its metadata warnings), and the whole run aborts with
`InsufficientDataError` exactly when zero features are trainable. -/
theorem trainFeature_insufficient_data (rows : List TrainingRow)
    (targets : List FeatureName) (f : FeatureName)
    (hins : (usableRows (cleanRows rows targets) f).length < minRows) :
    trainFeature (fitVocabulary (cleanRows rows targets))
        (cleanRows rows targets) f =
      Except.error TrainError.InsufficientDataError ∧
    (∀ b, runPipeline rows targets = Except.ok b →
      f ∉ b.featureNames ∧ (f ∈ targets → f ∈ b.metadata.skippedFeatures)) ∧
    ((∀ g ∈ targets,
        (usableRows (cleanRows rows targets) g).length < minRows) →
      runPipeline rows targets = Except.error TrainError.InsufficientDataError) := by
  have herr := trainFeature_error_of_insufficient
    (fitVocabulary (cleanRows rows targets)) (cleanRows rows targets) f hins
  refine ⟨herr, ?_, ?_⟩
  · intro b hok
    obtain ⟨hfn, hsk⟩ := runPipeline_ok_inv rows targets b hok
    constructor
    · rw [hfn]
      intro hmemb
      rw [List.mem_map] at hmemb
      obtain ⟨pr, hprmem, hfst⟩ := hmemb
      simp only [pipelineTrained, List.mem_filterMap] at hprmem
      obtain ⟨pe, hpemem, hpe⟩ := hprmem
      simp only [pipelineResults, List.mem_map] at hpemem
      obtain ⟨g, _, rfl⟩ := hpemem
      cases hres : trainFeature (fitVocabulary (cleanRows rows targets))
          (cleanRows rows targets) g with
      | ok r =>
        rw [hres] at hpe
        simp only [Option.some.injEq] at hpe
        rw [← hpe] at hfst
        simp only at hfst
        rw [hfst] at hres
        rw [herr] at hres
        cases hres
      | error e =>
        rw [hres] at hpe
        cases hpe
    · intro hft
      rw [hsk]
      simp only [pipelineSkipped, List.mem_filterMap]
      refine ⟨(f, trainFeature (fitVocabulary (cleanRows rows targets))
        (cleanRows rows targets) f), ?_, ?_⟩
      · simp only [pipelineResults, List.mem_map]
        exact ⟨f, hft, rfl⟩
      · rw [herr]
  · intro hall
    have htr : pipelineTrained rows targets = [] := by
      simp only [pipelineTrained]
      rw [List.filterMap_eq_nil_iff]
      intro pe hpemem
      simp only [pipelineResults, List.mem_map] at hpemem
      obtain ⟨g, hg, rfl⟩ := hpemem
      rw [trainFeature_error_of_insufficient _ _ g (hall g hg)]
    simp only [runPipeline]
    rw [if_pos htr]

/-- Witness for C6: training valence on an empty corpus (0 < 50 usable
rows) yields the explicit error, and — valence being the only target —
the whole run aborts. -/
theorem trainFeature_insufficient_data_witness :
    trainFeature (fitVocabulary (cleanRows [] [.valence]))
        (cleanRows [] [.valence]) .valence =
      Except.error TrainError.InsufficientDataError ∧
    (∀ b, runPipeline [] [.valence] = Except.ok b →
      FeatureName.valence ∉ b.featureNames ∧
      (FeatureName.valence ∈ [FeatureName.valence] →
        FeatureName.valence ∈ b.metadata.skippedFeatures)) ∧
    ((∀ g ∈ [FeatureName.valence],
        (usableRows (cleanRows [] [FeatureName.valence]) g).length < minRows) →
      runPipeline [] [.valence] =
        Except.error TrainError.InsufficientDataError) :=
  trainFeature_insufficient_data [] [.valence] .valence (by decide)

end AudioPredictor

namespace AudioPredictor

lemma trainFeature_error_of_truth_none (rows : List TrainingRow)
    (targets : List FeatureName) (f : FeatureName)
    (hf : ∀ r ∈ rows, r.truth f = none) :
    trainFeature (fitVocabulary (cleanRows rows targets))
        (cleanRows rows targets) f = .error .InsufficientDataError := by
  apply trainFeature_error_of_insufficient
  have hnil : usableRows (cleanRows rows targets) f = [] := by
    simp only [usableRows]
    rw [List.filter_eq_nil_iff]
    intro r hr
    have hrr : r ∈ rows := (List.mem_filter.mp hr).1
    simp [hf r hrr]
  rw [hnil]
  simp [minRows]

lemma trainFeature_ok_of_enough (rows : List TrainingRow)
    (targets : List FeatureName) (f : FeatureName)
    (hf : ¬ (usableRows (cleanRows rows targets) f).length < minRows) :
    ∃ rg, trainFeature (fitVocabulary (cleanRows rows targets))
        (cleanRows rows targets) f = .ok rg := by
  simp only [trainFeature]
  rw [if_neg hf]
  exact ⟨_, rfl⟩

/-- C5: a training run with enough clean rows for valence and energy but
null ground truth for every other feature does not abort: the pipeline
produces a bundle covering exactly energy and valence, records the five
uncovered features as skipped-with-warning in metadata, and `predict` on
that bundle returns values for exactly the covered features. -/
theorem partial_coverage_bundle (rows : List TrainingRow)
    (tags : List (String × ℚ))
    (hE : ¬ (usableRows (cleanRows rows allFeatures) .energy).length < minRows)
    (hV : ¬ (usableRows (cleanRows rows allFeatures) .valence).length < minRows)
    (hD : ∀ r ∈ rows, r.truth .danceability = none)
    (hS : ∀ r ∈ rows, r.truth .speechiness = none)
    (hA : ∀ r ∈ rows, r.truth .acousticness = none)
    (hI : ∀ r ∈ rows, r.truth .instrumentalness = none)
    (hT : ∀ r ∈ rows, r.truth .tempo = none) :
    (runPipeline rows allFeatures).map (fun b => b.featureNames) =
      Except.ok [.energy, .valence] ∧
    (runPipeline rows allFeatures).map (fun b => b.metadata.skippedFeatures) =
      Except.ok [.danceability, .speechiness, .acousticness,
        .instrumentalness, .tempo] ∧
    (runPipeline rows allFeatures).map
        (fun b => (predict b tags).values.map Prod.fst) =
      Except.ok [.energy, .valence] := by
  obtain ⟨rE, hrE⟩ := trainFeature_ok_of_enough rows allFeatures .energy hE
  obtain ⟨rV, hrV⟩ := trainFeature_ok_of_enough rows allFeatures .valence hV
  have hD2 := trainFeature_error_of_truth_none rows allFeatures .danceability hD
  have hS2 := trainFeature_error_of_truth_none rows allFeatures .speechiness hS
  have hA2 := trainFeature_error_of_truth_none rows allFeatures .acousticness hA
  have hI2 := trainFeature_error_of_truth_none rows allFeatures .instrumentalness hI
  have hT2 := trainFeature_error_of_truth_none rows allFeatures .tempo hT
  have hres : pipelineResults rows allFeatures =
      [(.danceability, .error .InsufficientDataError),
       (.energy, .ok rE), (.valence, .ok rV),
       (.speechiness, .error .InsufficientDataError),
       (.acousticness, .error .InsufficientDataError),
       (.instrumentalness, .error .InsufficientDataError),
       (.tempo, .error .InsufficientDataError)] := by
    simp only [allFeatures] at hD2 hS2 hA2 hI2 hT2 hrE hrV
    simp only [pipelineResults, allFeatures, List.map_cons, List.map_nil,
      hD2, hrE, hrV, hS2, hA2, hI2, hT2]
  have htrained : pipelineTrained rows allFeatures =
      [(.energy, rE), (.valence, rV)] := by
    simp only [pipelineTrained, hres, List.filterMap_cons, List.filterMap_nil]
  have hskipped : pipelineSkipped rows allFeatures =
      [.danceability, .speechiness, .acousticness,
       .instrumentalness, .tempo] := by
    simp only [pipelineSkipped, hres, List.filterMap_cons, List.filterMap_nil]
  have hne : pipelineTrained rows allFeatures ≠ [] := by
    rw [htrained]
    simp
  refine ⟨?_, ?_, ?_⟩ <;>
  · simp only [runPipeline]
    rw [if_neg hne]
    simp [Except.map, htrained, hskipped, predict]

end AudioPredictor

namespace AudioPredictor

/-- Witness for C5: fifty rows carrying ground truth only for energy and
valence train a bundle covering exactly those two features, skipping the
other five, and predictions on tags `[("rock", 1)]` carry exactly the two
covered feature names. -/
theorem partial_coverage_bundle_witness :
    (runPipeline sampleRows allFeatures).map (fun b => b.featureNames) =
      Except.ok [.energy, .valence] ∧
    (runPipeline sampleRows allFeatures).map
        (fun b => b.metadata.skippedFeatures) =
      Except.ok [.danceability, .speechiness, .acousticness,
        .instrumentalness, .tempo] ∧
    (runPipeline sampleRows allFeatures).map
        (fun b => (predict b [("rock", 1)]).values.map Prod.fst) =
      Except.ok [.energy, .valence] :=
  partial_coverage_bundle sampleRows [("rock", 1)]
    (by decide) (by decide) (by decide) (by decide) (by decide) (by decide)
    (by decide)

end AudioPredictor
